import Mathlib

/-!
Verification development for the `@fabric/matrix` adapter
(`src/services/matrix.js`).  The adapter wraps an external Matrix client:
it keeps a small in-memory state (`status`, `actors`, `users`, ...),
relays timeline callbacks as local events, and issues a handful of
outbound requests.  We embed the adapter's pure decision logic shallowly:
state mutations become explicit state passing, `emit` calls and outbound
client calls become entries of explicit traces, and thrown exceptions
become `Except.error` values.
-/

namespace FabricMatrix

/-- Configuration options of the adapter that the embedded logic reads
(`settings.autojoin`, `settings.handle`, `settings.coordinator`,
`settings.connect` in the constructor defaults of `matrix.js`). -/
structure Settings where
  autojoin : Bool
  handle : String
  coordinator : String
  connect : Bool
deriving Repr, DecidableEq

/-- The constructor defaults assigned in `matrix.js` (lines 29-44). -/
def defaultSettings : Settings :=
  { autojoin := true
  , handle := "@fabric:fabric.pub"
  , coordinator := "!pPjIUAOkwmgXeICrzT:fabric.pub"
  , connect := true }

/-- Modelled from the spec: the Fabric `Actor` type
(`@fabric/core/types/actor`) is not under `src/`.  The spec says an
Actor identity is "derived deterministically from a public key or
external user id" and the derivation is collision-free.  `matrix.js`
constructs actors from two distinct input shapes: an object with an
`id` field (`_ensureUser`) and an object with a `pubkey` field
(`_registerActor`). -/
inductive ActorInput where
  | byId (id : String)
  | byPubkey (pubkey : String)
deriving Repr, DecidableEq

/-- Modelled from the spec: the derived actor id.  The derivation is a
deterministic collision-free function of the construction input, which
we model as the input wrapped in a distinct type. -/
structure ActorId where
  input : ActorInput
deriving Repr, DecidableEq

/-- Modelled from the spec: an Actor carries its derived `id` and the
opaque `data` payload it was constructed from. -/
structure Actor where
  id : ActorId
  data : ActorInput
deriving Repr, DecidableEq

/-- Modelled from the spec: `new Actor(input)` derives the id from the
input and stores the input as the data payload. -/
def mkActor (input : ActorInput) : Actor :=
  { id := { input := input }, data := input }

/-- Association-list update used to model assignments into the plain
JavaScript objects `this._state.actors` and `this._state.users`:
overwrite the entry when the key is present, append it otherwise. -/
def setEntry {κ α : Type} [DecidableEq κ] (k : κ) (v : α) :
    List (κ × α) → List (κ × α)
  | [] => [(k, v)]
  | (q, w) :: rest =>
      if q = k then (k, v) :: rest else (q, w) :: setEntry k v rest

/-- Association-list lookup for the same maps. -/
def lookupEntry {κ α : Type} [DecidableEq κ] (k : κ) :
    List (κ × α) → Option α
  | [] => none
  | (q, w) :: rest => if q = k then some w else lookupEntry k rest

/-- The record stored in `this._state.users[user.id]` by `_ensureUser`:
an object with a single `actor` field holding the actor id. -/
structure UserEntry where
  actor : ActorId
deriving Repr, DecidableEq

/-- The adapter's `this._state` (`matrix.js` lines 56-63): `status`
starts as READY; `actors` maps actor ids to actor data; `users` maps
external user ids to actor-id records.  The `channels`, `messages` and
`validators` members are never read or written by the adapter, so they
are omitted. -/
structure MatrixState where
  status : String
  actors : List (ActorId × ActorInput)
  users : List (String × UserEntry)
deriving Repr, DecidableEq

/-- The state installed by the constructor (`matrix.js` lines 56-63). -/
def initState : MatrixState :=
  { status := "READY", actors := [], users := [] }

/-- The `set status` accessor (`matrix.js` lines 77-87): a switch whose
only case is READY; every other value falls to the default branch,
which returns `false` without touching `this._state.status`.  The
returned Boolean is the accessor's return value, which every caller
ignores. -/
def setStatus (s : MatrixState) (value : String) : MatrixState × Bool :=
  match value with
  | "READY" => ({ s with status := value }, true)
  | _ => (s, false)

/-- `_ensureUser(user)` (`matrix.js` lines 405-412): build an Actor from
an object holding the external user id, store its data under its actor
id in `state.actors`, store the actor id under the external id in
`state.users`, and return the actor. -/
def ensureUser (s : MatrixState) (userId : String) : Actor × MatrixState :=
  let actor := mkActor (ActorInput.byId userId)
  ( actor
  , { s with
      actors := setEntry actor.id actor.data s.actors
    , users := setEntry userId { actor := actor.id } s.users } )

/-- The normalized activity payload emitted by the timeline and message
handlers: an object `{actor, object: {id?, content}, target}`.
`_handleRoomTimeline` fills the object id; `_handleMatrixMessage`
omits it. -/
structure Activity where
  actor : ActorId
  objectId : Option String
  content : String
  target : String
deriving Repr, DecidableEq

/-- Local events emitted through `this.emit` in `matrix.js`.  Payloads
built with `Message.fromVector` are modelled by their vector type tag
plus the varying field. -/
inductive Emitted where
  | log (msg : String)
  | errorMsg (msg : String)
  | warning (msg : String)
  | message (vectorType : String) (payload : String)
  | prepared (status : String)
  | ready
  | activity (a : Activity)
deriving Repr, DecidableEq

/-- Outbound calls issued to the external Matrix client. -/
inductive ClientRequest where
  | joinRoom (roomId : String)
  | sendReaction (roomId eventId emoji : String)
  | redactEvent (roomId eventId : String)
  | registerRequest (username password : String)
deriving Repr, DecidableEq

/-- One observable step of an adapter method: a local emission or an
outbound client call, in program order. -/
inductive Step where
  | emit (e : Emitted)
  | request (r : ClientRequest)
deriving Repr, DecidableEq

/-- Whitespace test matching the characters stripped by the JavaScript
`String.prototype.trim` that occur in Lean `Char` whitespace: space,
tab, carriage return and newline. -/
def isTrimmed (c : Char) : Bool :=
  c = ' ' || c = '\t' || c = '\r' || c = '\n'

/-- JavaScript `String.prototype.trim`: strip leading and trailing
whitespace.  Embedded directly because `matrix.js` line 369 calls
`status.trim()` on the sync status string. -/
def jsTrim (s : String) : String :=
  let l := s.data.dropWhile isTrimmed
  { data := (l.reverse.dropWhile isTrimmed).reverse }

/-- `_handleClientSync(status, prevState, res)` (`matrix.js` lines
368-381): when the trimmed status is PREPARED, emit a
`MatrixClientSync` message and a `prepared` event; otherwise emit a
`GenericError` message on the `error` channel and call
`process.exit()`.  The Boolean records whether the process exited. -/
def handleClientSync (status : String) : List Emitted × Bool :=
  if jsTrim status = "PREPARED" then
    ( [ Emitted.message "MatrixClientSync" status
      , Emitted.prepared status ]
    , false )
  else
    ( [ Emitted.errorMsg ("Unhandled sync event state: " ++ status) ]
    , true )

/-- `_handlePreparedEvent(status)` (`matrix.js` lines 421-425): attach
the timeline listener, publish state (`_publishState` is a no-op: its
body is commented out), then emit `ready`. -/
def handlePreparedEvent : List Emitted :=
  [Emitted.ready]

/-- Delivery of one sync lifecycle callback to the adapter, as wired by
`start()`: `_handleClientSync` runs, and every `prepared` event it
emits synchronously triggers `_handlePreparedEvent` (registered with
`this.on` in `start`).  Neither handler touches `this._state`, so the
state passes through unchanged. -/
def deliverSync (s : MatrixState) (status : String) :
    MatrixState × List Emitted × Bool :=
  match handleClientSync status with
  | (evs, true) => (s, evs, true)
  | (evs, false) => (s, evs ++ handlePreparedEvent, false)

/-- A timeline event as read by the handlers: `event.getType()`,
`event.event.sender`, `event.event.event_id`,
`event.event.content.body` and `event.event.room_id`. -/
structure TimelineEvent where
  type : String
  sender : String
  eventId : String
  body : String
  roomId : String
deriving Repr, DecidableEq

/-- `_handleRoomTimeline(event, room, toStartOfTimeline)` (`matrix.js`
lines 383-403): resolve the sender through `_ensureUser`; for type
`m.room.message` publish state (`_syncState` is a no-op) and emit one
`activity` event; for every other type emit one `warning` naming the
type.  The returned events are emitted in the returned state. -/
def handleRoomTimeline (s : MatrixState) (event : TimelineEvent)
    (roomId : String) : MatrixState × List Emitted :=
  let (actor, s1) := ensureUser s event.sender
  if event.type = "m.room.message" then
    ( s1
    , [ Emitted.activity
          { actor := actor.id
          , objectId := some event.eventId
          , content := event.body
          , target := "/rooms/" ++ roomId } ] )
  else
    ( s1
    , [ Emitted.warning
          ("Unhandled Matrix message type: " ++ event.type) ] )

/-- `_handleMatrixMessage(msg)` (`matrix.js` lines 350-366): same shape
as the timeline handler but the room id comes from the event itself
and the activity object carries no id field. -/
def handleMatrixMessage (s : MatrixState) (msg : TimelineEvent) :
    MatrixState × List Emitted :=
  let (actor, s1) := ensureUser s msg.sender
  if msg.type = "m.room.message" then
    ( s1
    , [ Emitted.activity
          { actor := actor.id
          , objectId := none
          , content := msg.body
          , target := "/rooms/" ++ msg.roomId } ] )
  else
    ( s1
    , [ Emitted.warning
          ("Unhandled Matrix message type: " ++ msg.type) ] )

/-- A membership callback argument as read by the listener installed in
`start()`: `member.membership`, `member.userId`, `member.roomId`. -/
structure RoomMember where
  membership : String
  userId : String
  roomId : String
deriving Repr, DecidableEq

/-- The `RoomMember.membership` listener installed in `start()`
(`matrix.js` lines 468-472): join the room exactly when autojoin is
set, the membership is an invite, and it addresses the adapter's own
handle. -/
def membershipHandler (settings : Settings) (member : RoomMember) :
    List ClientRequest :=
  if settings.autojoin && member.membership == "invite"
      && member.userId == settings.handle then
    [ClientRequest.joinRoom member.roomId]
  else
    []

/-- `start()` (`matrix.js` lines 444-479): assign STARTING through the
status accessor, emit a starting log, register the sync / activity /
prepared / membership listeners, optionally start the client and join
the coordinator room, assign STARTED through the status accessor, and
emit a started log.  The assignments go through `setStatus`, whose
Boolean result the source ignores. -/
def start (s : MatrixState) (settings : Settings) :
    MatrixState × List Step :=
  let s1 := (setStatus s "STARTING").1
  let connectSteps :=
    if settings.connect then
      [Step.request (ClientRequest.joinRoom settings.coordinator)]
    else
      []
  let s2 := (setStatus s1 "STARTED").1
  ( s2
  , Step.emit (Emitted.log "[SERVICES:MATRIX] Starting...")
      :: connectSteps
      ++ [Step.emit (Emitted.log "[SERVICES:MATRIX] Started!")] )

/-- `stop()` (`matrix.js` lines 484-491): assign STOPPING then STOPPED
through the status accessor. -/
def stop (s : MatrixState) : MatrixState :=
  let s1 := (setStatus s "STOPPING").1
  (setStatus s1 "STOPPED").1

/-- An event held in a room timeline, as read by `_getEvent`, `_react`
and `_redact`: `event.getId()` and `event.event.room_id`. -/
structure MatrixEvent where
  eventId : String
  roomId : String
deriving Repr, DecidableEq

/-- A room returned by `client.getRooms()`, with its `timeline`
array. -/
structure Room where
  timeline : List MatrixEvent
deriving Repr, DecidableEq

/-- The inner loop of `_getEvent` (`matrix.js` lines 122-128): walk one
timeline from its last index backwards and stop at the first event
whose id matches. -/
def scanTimelineBack (timeline : List MatrixEvent) (eventID : String) :
    Option MatrixEvent :=
  match timeline with
  | [] => none
  | e :: rest =>
      match scanTimelineBack rest eventID with
      | some found => some found
      | none => if e.eventId == eventID then some e else none

/-- `_getEvent(eventID)` (`matrix.js` lines 113-138): walk the rooms
array from its last index backwards, scanning each timeline backwards,
and return the first match; return null (`none`) when no room holds
the event. -/
def getEvent (rooms : List Room) (eventID : String) : Option MatrixEvent :=
  match rooms with
  | [] => none
  | room :: rest =>
      match getEvent rest eventID with
      | some found => some found
      | none => scanTimelineBack room.timeline eventID

/-- `_react(eventID, emoji)` (`matrix.js` lines 190-207): look the event
up with `_getEvent`, then read `event.event.room_id` and send the
`m.reaction` annotation.  When the lookup returned null the property
read throws a TypeError before any request is sent, modelled as the
error branch carrying no request. -/
def react (rooms : List Room) (eventID emoji : String) :
    Except String (List ClientRequest) :=
  match getEvent rooms eventID with
  | none => Except.error "TypeError: Cannot read properties of null"
  | some ev =>
      Except.ok [ClientRequest.sendReaction ev.roomId eventID emoji]

/-- `_redact(eventID)` (`matrix.js` lines 209-212): the same
lookup-then-act pattern with `redactEvent`, and the same null
dereference when the event is absent. -/
def redact (rooms : List Room) (eventID : String) :
    Except String (List ClientRequest) :=
  match getEvent rooms eventID with
  | none => Except.error "TypeError: Cannot read properties of null"
  | some ev =>
      Except.ok [ClientRequest.redactEvent ev.roomId eventID]

/-- Outcome of the external `client.registerRequest` call, supplied as
an oracle: either a result object (modelled by a string) or a thrown
exception. -/
inductive RegOutcome where
  | ok (result : String)
  | err (exception : String)
deriving Repr, DecidableEq

/-- The plaintext log line `register` emits before calling out
(`matrix.js` line 316). -/
def registerLogMsg (username password : String) : String :=
  "Trying registration: " ++ username ++ ":" ++ password

/-- `register(username, password)` (`matrix.js` lines 313-331): throw a
validation error when either argument is missing (falsy: the empty
string), otherwise emit the log line, attempt the external
registration, and on an exception log it to the console and keep the
initial null result.  Returns the observable steps in program order
together with the thrown error or returned value. -/
def register (username password : String) (outcome : RegOutcome) :
    List Step × Except String (Option String) :=
  if username = "" then
    ([], Except.error "Must provide username.")
  else if password = "" then
    ([], Except.error "Must provide password.")
  else
    let steps :=
      [ Step.emit (Emitted.log (registerLogMsg username password))
      , Step.request (ClientRequest.registerRequest username password) ]
    match outcome with
    | RegOutcome.ok result => (steps, Except.ok (some result))
    | RegOutcome.err _ => (steps, Except.ok none)

/-- The argument object of `_registerActor`, with the fields the method
reads: `pubkey` and `password`, both optional in JavaScript. -/
structure RegisterActorInput where
  pubkey : Option String
  password : Option String
deriving Repr, DecidableEq

/-- `_registerActor(object)` (`matrix.js` lines 219-290): throw a
validation error when `pubkey` is absent, before any state mutation or
outbound call.  Otherwise derive the canonical actor from the pubkey
alone, store a copy of the input minus its password under the actor id,
and, when `settings.connect` is set, run the best-effort connect flow;
its outbound requests are summarised by the coordinator join, the only
step whose request shape this model needs.  Returns the new state, the
outbound requests, and the thrown error or the actor id. -/
def registerActor (s : MatrixState) (settings : Settings)
    (obj : RegisterActorInput) :
    MatrixState × List ClientRequest × Except String ActorId :=
  match obj.pubkey with
  | none => (s, [], Except.error "Field \x22pubkey\x22 is required.")
  | some pk =>
      let actor := mkActor (ActorInput.byPubkey pk)
      let memory := ActorInput.byPubkey pk
      let s1 := { s with actors := setEntry actor.id memory s.actors }
      let reqs :=
        if settings.connect then
          [ClientRequest.joinRoom settings.coordinator]
        else
          []
      (s1, reqs, Except.ok actor.id)

/-- Looking a key up right after writing it finds the written value. -/
theorem lookupEntry_setEntry_self {κ α : Type} [DecidableEq κ] (k : κ)
    (v : α) (l : List (κ × α)) :
    lookupEntry k (setEntry k v l) = some v := by
  induction l with
  | nil => simp [setEntry, lookupEntry]
  | cons hd tl ih =>
    obtain ⟨q, w⟩ := hd
    by_cases h : q = k <;> simp [setEntry, lookupEntry, h, ih]

/-- Appending on the left is cancellative for strings. -/
theorem string_append_cancel_left (a b c : String) (h : a ++ b = a ++ c) :
    b = c := by
  apply String.ext
  have h2 := congrArg String.data h
  rw [String.data_append, String.data_append] at h2
  exact List.append_cancel_left h2

/-- The right operand of a string append is a suffix of the result, at
the level of character data. -/
theorem string_suffix_append (a b : String) : b.data <:+ (a ++ b).data := by
  rw [String.data_append]
  exact List.suffix_append _ _

/-- Soundness of the backward timeline scan: a hit lies in the timeline
and carries the searched id. -/
theorem scanTimelineBack_sound (tl : List MatrixEvent) (eid : String)
    (e : MatrixEvent) (h : scanTimelineBack tl eid = some e) :
    e ∈ tl ∧ e.eventId = eid := by
  induction tl with
  | nil => simp [scanTimelineBack] at h
  | cons hd rest ih =>
    rw [scanTimelineBack] at h
    cases hrec : scanTimelineBack rest eid with
    | some found =>
      rw [hrec] at h
      obtain ⟨hmem, hid⟩ := ih (hrec.trans (by rw [← h]))
      exact ⟨List.mem_cons_of_mem _ hmem, hid⟩
    | none =>
      rw [hrec] at h
      by_cases hb : hd.eventId == eid
      · simp [hb] at h
        subst h
        exact ⟨List.mem_cons_self _ _, by simpa using hb⟩
      · simp [hb] at h

/-- Completeness of the backward timeline scan: when the timeline holds
an event with the searched id, the scan returns a hit. -/
theorem scanTimelineBack_complete (tl : List MatrixEvent) (eid : String)
    (e : MatrixEvent) (he : e ∈ tl) (hid : e.eventId = eid) :
    (scanTimelineBack tl eid).isSome := by
  induction tl with
  | nil => cases he
  | cons hd rest ih =>
    rw [scanTimelineBack]
    cases hrec : scanTimelineBack rest eid with
    | some found => simp
    | none =>
      cases he with
      | head => simp [hid]
      | tail _ hmem =>
        have := ih hmem
        rw [hrec] at this
        simp at this

/-- Soundness of `_getEvent`: a hit lies in some known room and carries
the searched id. -/
theorem getEvent_sound (rooms : List Room) (eid : String)
    (e : MatrixEvent) (h : getEvent rooms eid = some e) :
    e.eventId = eid ∧ ∃ room ∈ rooms, e ∈ room.timeline := by
  induction rooms with
  | nil => simp [getEvent] at h
  | cons room rest ih =>
    rw [getEvent] at h
    cases hrec : getEvent rest eid with
    | some found =>
      rw [hrec] at h
      obtain ⟨hid, r, hr, hmem⟩ := ih (hrec.trans (by rw [← h]))
      exact ⟨hid, r, List.mem_cons_of_mem _ hr, hmem⟩
    | none =>
      rw [hrec] at h
      obtain ⟨hmem, hid⟩ := scanTimelineBack_sound _ _ _ h
      exact ⟨hid, room, List.mem_cons_self _ _, hmem⟩

/-- Completeness of `_getEvent`: when some known room's timeline holds
an event with the searched id, the search returns a hit. -/
theorem getEvent_complete (rooms : List Room) (eid : String)
    (e : MatrixEvent) (room : Room) (hr : room ∈ rooms)
    (he : e ∈ room.timeline) (hid : e.eventId = eid) :
    (getEvent rooms eid).isSome := by
  induction rooms with
  | nil => cases hr
  | cons hd rest ih =>
    rw [getEvent]
    cases hrec : getEvent rest eid with
    | some found => simp
    | none =>
      cases hr with
      | head => exact scanTimelineBack_complete _ _ _ he hid
      | tail _ hmem =>
        have := ih hmem
        rw [hrec] at this
        simp at this

/-- C1: the claimed lifecycle does not happen on the code.  The `set
status` accessor accepts only READY and silently rejects every other
value, so on a freshly constructed adapter `start()` leaves the status
getter at READY (not STARTED) and a following `stop()` leaves it at
READY (not STOPPED); the accessor rejects each of STARTING, STARTED,
STOPPING and STOPPED, returning false. -/
theorem c1_status_stuck_at_ready :
    (start initState defaultSettings).1.status = "READY"
    ∧ (start initState defaultSettings).1.status ≠ "STARTED"
    ∧ (stop (start initState defaultSettings).1).status = "READY"
    ∧ (stop (start initState defaultSettings).1).status ≠ "STOPPED"
    ∧ (setStatus initState "STARTING").2 = false
    ∧ (setStatus initState "STARTED").2 = false
    ∧ (setStatus initState "STOPPING").2 = false
    ∧ (setStatus initState "STOPPED").2 = false := by
  refine ⟨rfl, by decide, rfl, by decide, rfl, rfl, rfl, rfl⟩

/-- C2 counterexample: delivering a sync callback whose status is the
prepared signal to a freshly constructed adapter does not transition
the status to STARTED — the state is untouched and the status getter
still reports READY. -/
theorem c2_no_status_transition :
    (deliverSync initState "PREPARED").1 = initState
    ∧ (deliverSync initState "PREPARED").1.status ≠ "STARTED" := by
  refine ⟨rfl, by decide⟩

/-- C2 amended: for every sync lifecycle callback, when the trimmed
status is the prepared signal the adapter emits a MatrixClientSync
message, a prepared event and — through the prepared handler — a ready
event exactly once, without exiting; for any other status an error
event is emitted and the process terminates immediately; in both cases
the adapter state (its status included) is unchanged by the
callback. -/
theorem c2_sync_callback_events (s : MatrixState) (status : String) :
    (deliverSync s status).1 = s
    ∧ (if jsTrim status = "PREPARED" then
        (deliverSync s status).2.1
          = [ Emitted.message "MatrixClientSync" status
            , Emitted.prepared status
            , Emitted.ready ]
        ∧ (deliverSync s status).2.2 = false
      else
        (deliverSync s status).2.1
          = [Emitted.errorMsg ("Unhandled sync event state: " ++ status)]
        ∧ (deliverSync s status).2.2 = true) := by
  by_cases h : jsTrim status = "PREPARED" <;>
    simp [deliverSync, handleClientSync, handlePreparedEvent, h]

/-- C3: actor-id derivation by `_ensureUser` is deterministic and
injective in the external user id: distinct external ids give distinct
actor ids, repeated calls with the same id return the same actor id
regardless of the state they run in, and each call refreshes the
stored actor data and user mapping. -/
theorem c3_ensureUser_injective_stable (s t : MatrixState)
    (u1 u2 u : String) :
    (u1 ≠ u2 → (ensureUser s u1).1.id ≠ (ensureUser t u2).1.id)
    ∧ (ensureUser s u).1.id = (ensureUser t u).1.id
    ∧ lookupEntry (ensureUser s u).1.id (ensureUser s u).2.actors
        = some (ActorInput.byId u)
    ∧ lookupEntry u (ensureUser s u).2.users
        = some { actor := (ensureUser s u).1.id } := by
  refine ⟨?_, rfl, ?_, ?_⟩
  · intro hne heq
    exact hne (by simpa [ensureUser, mkActor, ActorId.mk.injEq] using heq)
  · simpa [ensureUser, mkActor] using
      lookupEntry_setEntry_self (κ := ActorId)
        { input := ActorInput.byId u } (ActorInput.byId u) s.actors
  · simpa [ensureUser, mkActor] using
      lookupEntry_setEntry_self (κ := String) u
        { actor := { input := ActorInput.byId u } } s.users

/-- C3 witness: concrete instance — the actor ids of alice and bob
differ, and alice's user mapping is stored. -/
theorem c3_ensureUser_witness :
    (ensureUser initState "@alice:fabric.pub").1.id
        ≠ (ensureUser initState "@bob:fabric.pub").1.id
    ∧ lookupEntry "@alice:fabric.pub"
        (ensureUser initState "@alice:fabric.pub").2.users
        = some { actor := (ensureUser initState "@alice:fabric.pub").1.id } :=
  ⟨(c3_ensureUser_injective_stable initState initState
      "@alice:fabric.pub" "@bob:fabric.pub" "@alice:fabric.pub").1
      (by decide),
   (c3_ensureUser_injective_stable initState initState
      "@alice:fabric.pub" "@bob:fabric.pub" "@alice:fabric.pub").2.2.2⟩

/-- C4: a timeline event of message type with sender u and body b in
room r produces exactly one activity event whose actor is the id
derived by `_ensureUser` for u, whose object content is b, and whose
target contains r; an event of any other type produces exactly one
warning event naming the unhandled type — never an error event and
never nothing. -/
theorem c4_room_timeline_relay (s : MatrixState) (u i b r : String)
    (e : TimelineEvent) :
    (handleRoomTimeline s
        { type := "m.room.message", sender := u, eventId := i
        , body := b, roomId := r } r).2
      = [ Emitted.activity
            { actor := (ensureUser s u).1.id
            , objectId := some i
            , content := b
            , target := "/rooms/" ++ r } ]
    ∧ r.data <:+ ("/rooms/" ++ r).data
    ∧ (e.type ≠ "m.room.message" →
        (handleRoomTimeline s e r).2
          = [Emitted.warning ("Unhandled Matrix message type: " ++ e.type)]) := by
  refine ⟨rfl, string_suffix_append _ _, ?_⟩
  intro h
  simp [handleRoomTimeline, h]

/-- C4 witness: concrete instance — a message event relays as one
activity, and an `m.reaction` event relays as one warning. -/
theorem c4_room_timeline_witness :
    (handleRoomTimeline initState
        { type := "m.room.message", sender := "@u1:fabric.pub"
        , eventId := "$evt1", body := "hello", roomId := "!room1" }
        "!room1").2
      = [ Emitted.activity
            { actor := (ensureUser initState "@u1:fabric.pub").1.id
            , objectId := some "$evt1"
            , content := "hello"
            , target := "/rooms/" ++ "!room1" } ]
    ∧ (handleRoomTimeline initState
        { type := "m.reaction", sender := "@u1:fabric.pub"
        , eventId := "$evt2", body := "", roomId := "!room1" }
        "!room1").2
      = [Emitted.warning ("Unhandled Matrix message type: " ++ "m.reaction")] :=
  ⟨(c4_room_timeline_relay initState "@u1:fabric.pub" "$evt1" "hello"
      "!room1"
      { type := "m.reaction", sender := "@u1:fabric.pub"
      , eventId := "$evt2", body := "", roomId := "!room1" }).1,
   (c4_room_timeline_relay initState "@u1:fabric.pub" "$evt1" "hello"
      "!room1"
      { type := "m.reaction", sender := "@u1:fabric.pub"
      , eventId := "$evt2", body := "", roomId := "!room1" }).2.2
      (by decide)⟩

/-- C5: `_getEvent` finds an event exactly when some known room's
timeline holds one with the searched id, every hit carries the
searched id and lies in a known timeline; and when no such event
exists, `_react` and `_redact` fail with the null-dereference error
before issuing any annotation or redaction request. -/
theorem c5_getEvent_lookup_then_act (rooms : List Room)
    (eid emoji : String) :
    ((getEvent rooms eid).isSome
      ↔ ∃ room ∈ rooms, ∃ e ∈ room.timeline, e.eventId = eid)
    ∧ (∀ e, getEvent rooms eid = some e →
        e.eventId = eid ∧ ∃ room ∈ rooms, e ∈ room.timeline)
    ∧ (getEvent rooms eid = none →
        react rooms eid emoji
          = Except.error "TypeError: Cannot read properties of null"
        ∧ redact rooms eid
          = Except.error "TypeError: Cannot read properties of null") := by
  refine ⟨⟨?_, ?_⟩, ?_, ?_⟩
  · intro h
    obtain ⟨e, he⟩ := Option.isSome_iff_exists.mp h
    obtain ⟨hid, room, hr, hmem⟩ := getEvent_sound rooms eid e he
    exact ⟨room, hr, e, hmem, hid⟩
  · rintro ⟨room, hr, e, hmem, hid⟩
    exact getEvent_complete rooms eid e room hr hmem hid
  · intro e he
    exact getEvent_sound rooms eid e he
  · intro h
    constructor
    · unfold react
      rw [h]
    · unfold redact
      rw [h]

/-- C5 witness: concrete instance — with one room holding one event,
looking up a missing id makes both react and redact fail with the
null-dereference error, and looking up the present id succeeds. -/
theorem c5_getEvent_witness :
    (react [{ timeline := [{ eventId := "$a", roomId := "!r1" }] }]
        "$missing" "x"
      = Except.error "TypeError: Cannot read properties of null")
    ∧ (redact [{ timeline := [{ eventId := "$a", roomId := "!r1" }] }]
        "$missing"
      = Except.error "TypeError: Cannot read properties of null")
    ∧ (getEvent [{ timeline := [{ eventId := "$a", roomId := "!r1" }] }]
        "$a").isSome :=
  ⟨((c5_getEvent_lookup_then_act
      [{ timeline := [{ eventId := "$a", roomId := "!r1" }] }]
      "$missing" "x").2.2 (by decide)).1,
   ((c5_getEvent_lookup_then_act
      [{ timeline := [{ eventId := "$a", roomId := "!r1" }] }]
      "$missing" "x").2.2 (by decide)).2,
   (c5_getEvent_lookup_then_act
      [{ timeline := [{ eventId := "$a", roomId := "!r1" }] }]
      "$a" "x").1.mpr
     ⟨{ timeline := [{ eventId := "$a", roomId := "!r1" }] },
      by decide, { eventId := "$a", roomId := "!r1" }, by decide, rfl⟩⟩

/-- C6: `register` fails synchronously with a validation error when the
username or the password is the empty (missing) value, with no
observable step — in particular no external call; when both are
present and the external registration request throws, the error is
swallowed and the returned value is null (`none`), with the request
still on the trace. -/
theorem c6_register_validation_and_swallow (username password e : String)
    (outcome : RegOutcome) :
    (username = "" →
        register username password outcome
          = ([], Except.error "Must provide username."))
    ∧ (username ≠ "" → password = "" →
        register username password outcome
          = ([], Except.error "Must provide password."))
    ∧ (username ≠ "" → password ≠ "" →
        register username password (RegOutcome.err e)
          = ( [ Step.emit (Emitted.log (registerLogMsg username password))
              , Step.request
                  (ClientRequest.registerRequest username password) ]
            , Except.ok none )) := by
  refine ⟨?_, ?_, ?_⟩
  · intro h
    simp [register, h]
  · intro hu hp
    simp [register, hu, hp]
  · intro hu hp
    simp [register, hu, hp]

/-- C6 witness: concrete instance — an empty password yields the
validation error with no steps, and a failing external registration
yields null with the log and the request on the trace. -/
theorem c6_register_witness :
    register "alice" "" (RegOutcome.ok "sess")
      = ([], Except.error "Must provide password.")
    ∧ register "alice" "pw" (RegOutcome.err "M_FORBIDDEN")
      = ( [ Step.emit (Emitted.log (registerLogMsg "alice" "pw"))
          , Step.request (ClientRequest.registerRequest "alice" "pw") ]
        , Except.ok none ) :=
  ⟨(c6_register_validation_and_swallow "alice" "" "M_FORBIDDEN"
      (RegOutcome.ok "sess")).2.1 (by decide) rfl,
   (c6_register_validation_and_swallow "alice" "pw" "M_FORBIDDEN"
      (RegOutcome.ok "sess")).2.2 (by decide) (by decide)⟩

/-- C7: `_registerActor` on an object lacking a pubkey fails with the
validation error, issuing no outbound request and leaving the adapter
state — its actors map included — unchanged. -/
theorem c7_registerActor_requires_pubkey (s : MatrixState)
    (settings : Settings) (obj : RegisterActorInput)
    (h : obj.pubkey = none) :
    registerActor s settings obj
      = (s, [], Except.error "Field \x22pubkey\x22 is required.") := by
  simp [registerActor, h]

/-- C7 witness: concrete instance — registering an actor that only has
a password fails with the validation error, no request, state
unchanged. -/
theorem c7_registerActor_witness :
    registerActor initState defaultSettings
        { pubkey := none, password := some "pw" }
      = (initState, [], Except.error "Field \x22pubkey\x22 is required.") :=
  c7_registerActor_requires_pubkey initState defaultSettings
    { pubkey := none, password := some "pw" } rfl

/-- C8: ensure-before-use — whenever either timeline handler emits an
activity event, its actor id is the one `_ensureUser` derives from the
event sender, and the state in which the emission happens (the
handler's post-`_ensureUser` state, which nothing mutates before the
emit) already holds the actor entry under that id and the user mapping
under the sender. -/
theorem c8_ensure_before_use (s : MatrixState) (e : TimelineEvent)
    (r : String) (a : Activity) :
    (Emitted.activity a ∈ (handleRoomTimeline s e r).2 →
        a.actor = (mkActor (ActorInput.byId e.sender)).id
        ∧ lookupEntry a.actor (handleRoomTimeline s e r).1.actors
            = some (ActorInput.byId e.sender)
        ∧ lookupEntry e.sender (handleRoomTimeline s e r).1.users
            = some { actor := a.actor })
    ∧ (Emitted.activity a ∈ (handleMatrixMessage s e).2 →
        a.actor = (mkActor (ActorInput.byId e.sender)).id
        ∧ lookupEntry a.actor (handleMatrixMessage s e).1.actors
            = some (ActorInput.byId e.sender)
        ∧ lookupEntry e.sender (handleMatrixMessage s e).1.users
            = some { actor := a.actor }) := by
  constructor
  · intro hmem
    by_cases ht : e.type = "m.room.message" <;>
      simp [handleRoomTimeline, ensureUser, mkActor, ht] at hmem
    subst hmem
    refine ⟨rfl, ?_, ?_⟩ <;>
      simpa [handleRoomTimeline, ensureUser, mkActor, ht] using
        lookupEntry_setEntry_self _ _ _
  · intro hmem
    by_cases ht : e.type = "m.room.message" <;>
      simp [handleMatrixMessage, ensureUser, mkActor, ht] at hmem
    subst hmem
    refine ⟨rfl, ?_, ?_⟩ <;>
      simpa [handleMatrixMessage, ensureUser, mkActor, ht] using
        lookupEntry_setEntry_self _ _ _

/-- C8 witness: concrete instance — the activity emitted for a concrete
message event has its actor and user entries present in the state at
emission. -/
theorem c8_ensure_before_use_witness :
    lookupEntry "@u1:fabric.pub"
        (handleRoomTimeline initState
          { type := "m.room.message", sender := "@u1:fabric.pub"
          , eventId := "$evt1", body := "hello", roomId := "!room1" }
          "!room1").1.users
      = some { actor := (mkActor (ActorInput.byId "@u1:fabric.pub")).id } :=
  ((c8_ensure_before_use initState
      { type := "m.room.message", sender := "@u1:fabric.pub"
      , eventId := "$evt1", body := "hello", roomId := "!room1" }
      "!room1"
      { actor := (mkActor (ActorInput.byId "@u1:fabric.pub")).id
      , objectId := some "$evt1"
      , content := "hello"
      , target := "/rooms/" ++ "!room1" }).1
    (by simp [handleRoomTimeline, ensureUser, mkActor])).2.2

/-- C9: the membership listener issues exactly one join request for an
invite addressed to the adapter's own handle when autojoin is set;
it issues none when autojoin is unset, and none for an invite
addressed to any other user id. -/
theorem c9_autojoin_invites (settings : Settings) (member : RoomMember) :
    (settings.autojoin = true → member.membership = "invite" →
        member.userId = settings.handle →
        membershipHandler settings member
          = [ClientRequest.joinRoom member.roomId])
    ∧ (settings.autojoin = false →
        membershipHandler settings member = [])
    ∧ (member.userId ≠ settings.handle →
        membershipHandler settings member = []) := by
  refine ⟨?_, ?_, ?_⟩
  · intro ha hm hu
    simp [membershipHandler, ha, hm, hu]
  · intro ha
    simp [membershipHandler, ha]
  · intro hu
    simp [membershipHandler, hu]

/-- C9 witness: concrete instance — with the default settings (autojoin
on), an invite for the configured handle joins that room; the same
invite with autojoin off, or addressed to another user, joins
nothing. -/
theorem c9_autojoin_witness :
    membershipHandler defaultSettings
        { membership := "invite", userId := "@fabric:fabric.pub"
        , roomId := "!inviteRoom" }
      = [ClientRequest.joinRoom "!inviteRoom"]
    ∧ membershipHandler { defaultSettings with autojoin := false }
        { membership := "invite", userId := "@fabric:fabric.pub"
        , roomId := "!inviteRoom" }
      = []
    ∧ membershipHandler defaultSettings
        { membership := "invite", userId := "@other:fabric.pub"
        , roomId := "!inviteRoom" }
      = [] :=
  ⟨(c9_autojoin_invites defaultSettings
      { membership := "invite", userId := "@fabric:fabric.pub"
      , roomId := "!inviteRoom" }).1 rfl rfl rfl,
   (c9_autojoin_invites { defaultSettings with autojoin := false }
      { membership := "invite", userId := "@fabric:fabric.pub"
      , roomId := "!inviteRoom" }).2.1 rfl,
   (c9_autojoin_invites defaultSettings
      { membership := "invite", userId := "@other:fabric.pub"
      , roomId := "!inviteRoom" }).2.2 (by decide)⟩

/-- C10: with both arguments present, `register` emits — before the
external registration request on its trace — a log event whose string
payload ends with the password in plaintext; the emitted log stream is
not independent of the password: two runs differing only in the
password value produce different log events. -/
theorem c10_password_in_plaintext_log (u p q : String)
    (outcome : RegOutcome) (hu : u ≠ "") (hp : p ≠ "") :
    (register u p outcome).1
      = [ Step.emit (Emitted.log (registerLogMsg u p))
        , Step.request (ClientRequest.registerRequest u p) ]
    ∧ p.data <:+ (registerLogMsg u p).data
    ∧ (p ≠ q →
        Emitted.log (registerLogMsg u p)
          ≠ Emitted.log (registerLogMsg u q)) := by
  refine ⟨?_, ?_, ?_⟩
  · cases outcome <;> simp [register, hu, hp]
  · exact string_suffix_append (("Trying registration: " ++ u) ++ ":") p
  · intro hpq heq
    apply hpq
    have hmsg : registerLogMsg u p = registerLogMsg u q := by
      injection heq
    unfold registerLogMsg at hmsg
    exact string_append_cancel_left _ _ _ hmsg

/-- C10 witness: concrete instance — registering alice logs the
password hunter2 in plaintext before the request, and changing only
the password to hunter3 changes the emitted log event. -/
theorem c10_password_in_plaintext_log_witness :
    (register "alice" "hunter2" (RegOutcome.ok "sess")).1
      = [ Step.emit (Emitted.log (registerLogMsg "alice" "hunter2"))
        , Step.request (ClientRequest.registerRequest "alice" "hunter2") ]
    ∧ Emitted.log (registerLogMsg "alice" "hunter2")
        ≠ Emitted.log (registerLogMsg "alice" "hunter3") :=
  ⟨(c10_password_in_plaintext_log "alice" "hunter2" "hunter3"
      (RegOutcome.ok "sess") (by decide) (by decide)).1,
   (c10_password_in_plaintext_log "alice" "hunter2" "hunter3"
      (RegOutcome.ok "sess") (by decide) (by decide)).2.2 (by decide)⟩

end FabricMatrix
